import Mathlib

/-!
Verification of the daily-accumulation (DCA) strategy state machine and the
backtesting engine of this repository, as a shallow embedding in Lean.

Prices are modelled as exact rationals (the Python code computes in float64;
the embedding works with the exact real values of the same expressions).
Quantities are integers, as in the source (`int` quantities).

Sources embedded here:
* `src/strategies/percentage_strategy.py`, class `DailyDCAStrategy`
  (`_calculate_quantity`, `generate_signals`);
* `src/strategies/base_strategy.py` (`calculate_positions`, `validate_data`,
  `apply_strategy`);
* `src/backtesting/backtester.py` (`run`, `calculate_metrics`).
-/

/-- Truncation toward zero of an exact rational, the behaviour of Python's
`int(...)` conversion used in `_calculate_quantity`. -/
def pyInt (q : ℚ) : ℤ :=
  if 0 ≤ q.num then ((q.num.natAbs / q.den : ℕ) : ℤ) else -((q.num.natAbs / q.den : ℕ) : ℤ)

/-- Per-lot profit in percent: `((current_close - buy_price) / buy_price) * 100`. -/
def lotProfitPct (close price : ℚ) : ℚ := (close - price) / price * 100

/-- Total quantity of a lot book (`sum(qty for _, qty in buy_positions)`). -/
def bookTotalQty (book : List (ℚ × ℤ)) : ℤ := (book.map Prod.snd).sum

/-- Total cost of a lot book (`sum(price * qty for price, qty in buy_positions)`). -/
def bookTotalCost (book : List (ℚ × ℤ)) : ℚ :=
  (book.map (fun pq => pq.1 * (pq.2 : ℚ))).sum

/-- The nine constructor parameters of `DailyDCAStrategy.__init__`. -/
structure DCAConfig where
  max_positions : ℕ
  profit_target_percent : ℚ
  first_day_buy : Bool
  lookback_days : ℕ
  pullback_percent : ℚ
  position_scaling : Bool
  base_quantity : ℤ
  depth_threshold : ℚ
  max_quantity_multiplier : ℤ

/-- `DailyDCAStrategy._calculate_quantity`: when scaling is enabled the
multiplier is `min(1 + int(drop_from_avg / depth_threshold), max_quantity_multiplier)`;
the source has no lower clamp on the multiplier. -/
def DCAConfig.calcQuantity (cfg : DCAConfig) (dropFromAvg : ℚ) : ℤ :=
  if cfg.position_scaling then
    cfg.base_quantity * min (1 + pyInt (dropFromAvg / cfg.depth_threshold)) cfg.max_quantity_multiplier
  else
    cfg.base_quantity

/-- The `should_buy` condition of `generate_signals` on a non-first bar:
a daily drop (`current_close < prev_close`), or a pullback of at least
`pullback_percent` percent from the recent rolling high (the source also
guards `recent_high > 0`). -/
def shouldBuyCond (cfg : DCAConfig) (prev rh close : ℚ) : Prop :=
  close < prev ∨ (0 < rh ∧ cfg.pullback_percent ≤ (rh - close) / rh * 100)

instance (cfg : DCAConfig) (prev rh close : ℚ) : Decidable (shouldBuyCond cfg prev rh close) := by
  unfold shouldBuyCond
  exact inferInstance

/-- Boolean test for a lot that meets the per-lot profit target at `close`
(the lots counted in `sell_count`). -/
def soldP (cfg : DCAConfig) (close : ℚ) : ℚ × ℤ → Bool :=
  fun pq => decide (cfg.profit_target_percent ≤ lotProfitPct close pq.1)

/-- Boolean test for a lot kept in `remaining_positions`. -/
def keepP (cfg : DCAConfig) (close : ℚ) : ℚ × ℤ → Bool :=
  fun pq => ! soldP cfg close pq

/-- The `drop_from_avg` computed inside the buy branch of `generate_signals`:
the percentage drop of the current close from the lot book's cost-weighted
average price, `0.0` when the book is empty (the source also falls back to
the current close when the total quantity is not positive). -/
def dropFromAvgOf (book : List (ℚ × ℤ)) (close : ℚ) : ℚ :=
  if 0 < book.length then
    let tq := bookTotalQty book
    let avg := if 0 < tq then bookTotalCost book / (tq : ℚ) else close
    (avg - close) / avg * 100
  else 0

/-- One iteration of the loop body of `DailyDCAStrategy.generate_signals`:
given the previous close (`none` on the first bar, where `prev_close` is NaN),
the rolling recent high, the current close and the current lot book, it
returns the mutated lot book together with `(Signal, Buy_Quantity, Sell_Count)`
recorded for the bar. -/
def dcaStepCore (cfg : DCAConfig) (prev : Option ℚ) (rh close : ℚ)
    (book : List (ℚ × ℤ)) : List (ℚ × ℤ) × ℤ × ℤ × ℕ :=
  match prev with
  | none =>
    if cfg.first_day_buy then
      (book ++ [(close, cfg.base_quantity)], 1, cfg.base_quantity, 0)
    else
      (book, 0, 0, 0)
  | some p =>
    if shouldBuyCond cfg p rh close ∧ book.length < cfg.max_positions then
      let q := cfg.calcQuantity (dropFromAvgOf book close)
      (book ++ [(close, q)], 1, q, 0)
    else if p < close ∧ 0 < book.length then
      if 0 < (book.filter (soldP cfg close)).length then
        (book.filter (keepP cfg close), -1, 0, (book.filter (soldP cfg close)).length)
      else
        (book, 0, 0, 0)
    else
      (book, 0, 0, 0)

/-- The per-bar output row recorded by `generate_signals`:
`Signal`, `Buy_Quantity`, `Sell_Count`, `Position_Count`, `Total_Quantity`
(the latter two recorded after the bar's mutation of the lot book). -/
structure BarOut where
  signal : ℤ
  buyQty : ℤ
  sellCount : ℕ
  posCount : ℕ
  totalQty : ℤ
deriving DecidableEq, Repr

/-- One bar of `generate_signals`: the mutated book plus the recorded row. -/
def dcaStep (cfg : DCAConfig) (prev : Option ℚ) (rh close : ℚ)
    (book : List (ℚ × ℤ)) : List (ℚ × ℤ) × BarOut :=
  let r := dcaStepCore cfg prev rh close book
  (r.1, { signal := r.2.1, buyQty := r.2.2.1, sellCount := r.2.2.2,
          posCount := r.1.length, totalQty := bookTotalQty r.1 })

/-- `Prev_Close` column: `df['Close'].shift(1)`, NaN (here `none`) at the first bar. -/
def prevCloseAt (closes : List ℚ) (t : ℕ) : Option ℚ :=
  if t = 0 then none else some (closes.getD (t - 1) 0)

/-- Maximum of a window of closes (pandas `.max()` over a nonempty window). -/
def windowMax : List ℚ → ℚ
  | [] => 0
  | x :: xs => xs.foldl max x

/-- `Recent_High` column: `df['Close'].rolling(window=lookback_days, min_periods=1).max()`
at row `t`, i.e. the maximum close over rows `max(0, t - L + 1) .. t`
(meaningful for `L ≥ 1`; pandas rejects a zero window). -/
def recentHighAt (L : ℕ) (closes : List ℚ) (t : ℕ) : ℚ :=
  windowMax (((List.range (t + 1)).drop (t + 1 - L)).map (fun i => closes.getD i 0))

/-- The lot book (`buy_positions`) held just before bar `t` executes. -/
def bookBefore (cfg : DCAConfig) (closes : List ℚ) : ℕ → List (ℚ × ℤ)
  | 0 => []
  | t + 1 =>
    (dcaStep cfg (prevCloseAt closes t) (recentHighAt cfg.lookback_days closes t)
      (closes.getD t 0) (bookBefore cfg closes t)).1

/-- The output row recorded at bar `t` of a `DailyDCAStrategy.generate_signals` run. -/
def dcaBarOut (cfg : DCAConfig) (closes : List ℚ) (t : ℕ) : BarOut :=
  (dcaStep cfg (prevCloseAt closes t) (recentHighAt cfg.lookback_days closes t)
    (closes.getD t 0) (bookBefore cfg closes t)).2

/-- The `should_buy` condition at bar `t` of a run. -/
def shouldBuyAt (cfg : DCAConfig) (closes : List ℚ) (t : ℕ) : Prop :=
  shouldBuyCond cfg (closes.getD (t - 1) 0) (recentHighAt cfg.lookback_days closes t)
    (closes.getD t 0)

/-- The pullback part of the buy trigger at bar `t`: the recent high is positive
and the drop from it is at least `pullback_percent` percent. -/
def pullbackCondAt (cfg : DCAConfig) (closes : List ℚ) (t : ℕ) : Prop :=
  0 < recentHighAt cfg.lookback_days closes t ∧
    cfg.pullback_percent ≤
      (recentHighAt cfg.lookback_days closes t - closes.getD t 0) /
        recentHighAt cfg.lookback_days closes t * 100

/-- The conditions under which the per-lot profit-taking branch of
`generate_signals` runs at bar `t`: not the first bar, the buy branch did not
execute, and the close rose versus the previous bar. -/
def sellBranchAt (cfg : DCAConfig) (closes : List ℚ) (t : ℕ) : Prop :=
  t ≠ 0 ∧
    ¬ (shouldBuyAt cfg closes t ∧ (bookBefore cfg closes t).length < cfg.max_positions) ∧
    closes.getD (t - 1) 0 < closes.getD t 0

/-! ## Backtest engine (`Backtester.run` pipeline for the DCA strategy)

`BaseStrategy.calculate_positions` sets `Position = Signal.fillna(0)`; for
the DCA strategy the `Signal` column is always defined, so `Position`
coincides with `Signal`. The engine then derives the per-bar columns below.
Rows are meaningful for `t ≥ 1`; row 0 of `Returns`, `Trade` and
`Strategy_Returns` is NaN in pandas and is not modelled. -/

/-- The `Position` column consumed by `Backtester.run`
(`df['Position'] = df['Signal'].fillna(0)` from `calculate_positions`). -/
def positionAt (cfg : DCAConfig) (closes : List ℚ) (t : ℕ) : ℚ :=
  ((dcaBarOut cfg closes t).signal : ℚ)

/-- `df['Position_Size'] = df['Position'] * position_size`. -/
def positionSizeAt (cfg : DCAConfig) (closes : List ℚ) (ps : ℚ) (t : ℕ) : ℚ :=
  positionAt cfg closes t * ps

/-- `df['Returns'] = df['Close'].pct_change()` at row `t ≥ 1`. -/
def returnsAt (closes : List ℚ) (t : ℕ) : ℚ :=
  closes.getD t 0 / closes.getD (t - 1) 0 - 1

/-- `df['Trade'] = df['Position'].diff().abs()` at row `t ≥ 1`. -/
def tradeAt (cfg : DCAConfig) (closes : List ℚ) (t : ℕ) : ℚ :=
  |positionAt cfg closes t - positionAt cfg closes (t - 1)|

/-- `df['Commission_Cost'] = df['Trade'] * self.commission`. -/
def commissionCostAt (cfg : DCAConfig) (com : ℚ) (closes : List ℚ) (t : ℕ) : ℚ :=
  tradeAt cfg closes t * com

/-- `df['Slippage_Cost'] = df['Trade'] * self.slippage`. -/
def slippageCostAt (cfg : DCAConfig) (slip : ℚ) (closes : List ℚ) (t : ℕ) : ℚ :=
  tradeAt cfg closes t * slip

/-- `df['Total_Cost'] = df['Commission_Cost'] + df['Slippage_Cost']`. -/
def totalCostAt (cfg : DCAConfig) (com slip : ℚ) (closes : List ℚ) (t : ℕ) : ℚ :=
  commissionCostAt cfg com closes t + slippageCostAt cfg slip closes t

/-- `df['Strategy_Returns'] = df['Position_Size'].shift(1) * df['Returns'] - df['Total_Cost']`
at row `t ≥ 1`. -/
def strategyReturnsAt (cfg : DCAConfig) (com slip ps : ℚ) (closes : List ℚ) (t : ℕ) : ℚ :=
  positionSizeAt cfg closes ps (t - 1) * returnsAt closes t - totalCostAt cfg com slip closes t

/-! ## Metrics (`Backtester.calculate_metrics`)

Pandas/numpy float semantics are modelled with `Option ℚ`, where `none`
stands for NaN: pandas `mean`/`std` skip NaN entries and return NaN on an
empty (respectively, shorter-than-`ddof+1`) selection; the comparisons
`x < 0`, `x > 0` are `False` on NaN, while `x != 0` is `True` on NaN.
The square root (irrational on ℚ) is abstracted by a function parameter
`f`; every property proved below holds for all choices of `f`. -/

/-- A pandas float cell: `none` models NaN. -/
abbrev PFloat := Option ℚ

/-- Elementwise `< 0` comparison (False on NaN), used to select losing rows. -/
def pfNeg? (x : PFloat) : Bool :=
  match x with
  | none => false
  | some a => decide (a < 0)

/-- Elementwise `> 0` comparison (False on NaN), used to select winning rows. -/
def pfPos? (x : PFloat) : Bool :=
  match x with
  | none => false
  | some a => decide (0 < a)

/-- Python `x != 0` on a float: True on NaN. -/
def pyNeZero (x : PFloat) : Bool :=
  match x with
  | none => true
  | some a => decide (a ≠ 0)

/-- Float division; NaN operands propagate. The division-by-zero case is
unreachable in the guarded expressions below and is mapped to `none`. -/
def pfDiv (x y : PFloat) : PFloat :=
  match x, y with
  | some a, some b => if b = 0 then none else some (a / b)
  | _, _ => none

/-- Float multiplication; NaN operands propagate. -/
def pfMul (x y : PFloat) : PFloat :=
  match x, y with
  | some a, some b => some (a * b)
  | _, _ => none

/-- Float absolute value; NaN propagates. -/
def pfAbs (x : PFloat) : PFloat := x.map (fun a => |a|)

/-- The non-NaN entries of a column. -/
def pfValid (xs : List PFloat) : List ℚ := xs.filterMap id

/-- Pandas `Series.mean()`: NaN entries skipped, NaN on an empty selection. -/
def pfMean (xs : List PFloat) : PFloat :=
  let v := pfValid xs
  if v.length = 0 then none else some (v.sum / (v.length : ℚ))

/-- Pandas sample variance (`ddof=1`): NaN when fewer than two non-NaN entries. -/
def pfVar (xs : List PFloat) : PFloat :=
  let v := pfValid xs
  if v.length < 2 then none
  else some ((v.map (fun x => (x - v.sum / (v.length : ℚ)) ^ 2)).sum / ((v.length : ℚ) - 1))

/-- Pandas `Series.std()` (`ddof=1`), with the square root abstracted by `f`. -/
def pfStd (f : ℚ → ℚ) (xs : List PFloat) : PFloat := (pfVar xs).map f

/-- `sharpe_ratio = (returns_mean / returns_std) * np.sqrt(252) if returns_std != 0 else 0`. -/
def sharpeRatio (f : ℚ → ℚ) (rets : List PFloat) : PFloat :=
  if pyNeZero (pfStd f rets) then
    pfMul (pfDiv (pfMean rets) (pfStd f rets)) (some (f 252))
  else some 0

/-- `sortino_ratio = (returns_mean / downside_std) * np.sqrt(252) if downside_std != 0 else 0`,
where `downside_std` is the std of the rows with `Strategy_Returns < 0`. -/
def sortinoRatio (f : ℚ → ℚ) (rets : List PFloat) : PFloat :=
  if pyNeZero (pfStd f (rets.filter pfNeg?)) then
    pfMul (pfDiv (pfMean rets) (pfStd f (rets.filter pfNeg?))) (some (f 252))
  else some 0

/-- `calmar_ratio = (total_return / abs(max_drawdown)) if max_drawdown != 0 else 0`. -/
def calmarRatio (totalReturn maxDrawdown : PFloat) : PFloat :=
  if pyNeZero maxDrawdown then pfDiv totalReturn (pfAbs maxDrawdown) else some 0

/-- `avg_win = winning_trades['Strategy_Returns'].mean() if len(winning_trades) > 0 else 0`. -/
def avgWin (rets : List PFloat) : PFloat :=
  if 0 < (rets.filter pfPos?).length then pfMean (rets.filter pfPos?) else some 0

/-- `avg_loss = losing_trades['Strategy_Returns'].mean() if len(losing_trades) > 0 else 0`. -/
def avgLoss (rets : List PFloat) : PFloat :=
  if 0 < (rets.filter pfNeg?).length then pfMean (rets.filter pfNeg?) else some 0

/-- `profit_factor = abs(avg_win / avg_loss) if avg_loss != 0 else 0`. -/
def profitFactor (rets : List PFloat) : PFloat :=
  if pyNeZero (avgLoss rets) then pfAbs (pfDiv (avgWin rets) (avgLoss rets)) else some 0

/-! ## Input validation (`BaseStrategy.validate_data` / `apply_strategy`) -/

/-- The shape of an input table that validation inspects: its column names
and its number of rows. -/
structure Table where
  columns : List String
  nrows : ℕ

/-- `required_columns = ['Open', 'High', 'Low', 'Close', 'Volume']`. -/
def requiredColumns : List String := ["Open", "High", "Low", "Close", "Volume"]

/-- `BaseStrategy.validate_data`: raise on the first missing required column,
then raise on an empty table (the NaN check only prints a warning). -/
def validate_data (t : Table) : Except String Unit :=
  match requiredColumns.find? (fun c => ! t.columns.contains c) with
  | some c => Except.error ("Required column " ++ c ++ " not found in data")
  | none => if t.nrows = 0 then Except.error "Data is empty" else Except.ok ()

/-- `BaseStrategy.apply_strategy`: validation runs first; signal generation
(abstracted by `sig`) runs only when validation succeeds, so a rejected
table produces no output at all. -/
def apply_strategy (sig : Table → List ℤ) (t : Table) : Except String (List ℤ) :=
  match validate_data t with
  | Except.error e => Except.error e
  | Except.ok _ => Except.ok (sig t)

/-! ## Concrete runs used by witnesses and counterexamples -/

/-- A configuration with the pullback trigger effectively disabled
(`pullback_percent = 9999`, the spec's own suggestion), first-day buy on,
scaling off. -/
def cfgFlat : DCAConfig :=
  { max_positions := 10, profit_target_percent := 3, first_day_buy := true,
    lookback_days := 7, pullback_percent := 9999, position_scaling := false,
    base_quantity := 1, depth_threshold := 5, max_quantity_multiplier := 5 }

/-- A configuration with an active pullback trigger (`1%` over a 3-bar high). -/
def cfgPull : DCAConfig :=
  { max_positions := 10, profit_target_percent := 3, first_day_buy := true,
    lookback_days := 3, pullback_percent := 1, position_scaling := false,
    base_quantity := 1, depth_threshold := 5, max_quantity_multiplier := 5 }

/-- A configuration with an active pullback trigger and no first-day buy. -/
def cfgPullNoFirst : DCAConfig :=
  { max_positions := 10, profit_target_percent := 3, first_day_buy := false,
    lookback_days := 7, pullback_percent := 3, position_scaling := false,
    base_quantity := 1, depth_threshold := 5, max_quantity_multiplier := 5 }

/-- The default configuration of `DailyDCAStrategy.__init__` (scaling on). -/
def cfgScale : DCAConfig :=
  { max_positions := 10, profit_target_percent := 3, first_day_buy := true,
    lookback_days := 7, pullback_percent := 3, position_scaling := true,
    base_quantity := 1, depth_threshold := 5, max_quantity_multiplier := 5 }

/-! ## Helper lemmas -/

/-- `Position_Count` recorded at bar `t` is the size of the lot book after
the bar's mutation. -/
theorem dcaBarOut_posCount (cfg : DCAConfig) (closes : List ℚ) (t : ℕ) :
    (dcaBarOut cfg closes t).posCount = (bookBefore cfg closes (t + 1)).length := rfl

/-- `Total_Quantity` recorded at bar `t` is the total quantity of the lot
book after the bar's mutation. -/
theorem dcaBarOut_totalQty (cfg : DCAConfig) (closes : List ℚ) (t : ℕ) :
    (dcaBarOut cfg closes t).totalQty = bookTotalQty (bookBefore cfg closes (t + 1)) := rfl

/-- The recorded signal is the first output component of the loop body. -/
theorem dcaBarOut_signal (cfg : DCAConfig) (closes : List ℚ) (t : ℕ) :
    (dcaBarOut cfg closes t).signal =
      (dcaStepCore cfg (prevCloseAt closes t) (recentHighAt cfg.lookback_days closes t)
        (closes.getD t 0) (bookBefore cfg closes t)).2.1 := rfl

/-- The recorded buy quantity is the second output component of the loop body. -/
theorem dcaBarOut_buyQty (cfg : DCAConfig) (closes : List ℚ) (t : ℕ) :
    (dcaBarOut cfg closes t).buyQty =
      (dcaStepCore cfg (prevCloseAt closes t) (recentHighAt cfg.lookback_days closes t)
        (closes.getD t 0) (bookBefore cfg closes t)).2.2.1 := rfl

/-- The recorded sell count is the third output component of the loop body. -/
theorem dcaBarOut_sellCount (cfg : DCAConfig) (closes : List ℚ) (t : ℕ) :
    (dcaBarOut cfg closes t).sellCount =
      (dcaStepCore cfg (prevCloseAt closes t) (recentHighAt cfg.lookback_days closes t)
        (closes.getD t 0) (bookBefore cfg closes t)).2.2.2 := rfl

/-- Unfolding the lot book one bar. -/
theorem bookBefore_succ (cfg : DCAConfig) (closes : List ℚ) (t : ℕ) :
    bookBefore cfg closes (t + 1) =
      (dcaStepCore cfg (prevCloseAt closes t) (recentHighAt cfg.lookback_days closes t)
        (closes.getD t 0) (bookBefore cfg closes t)).1 := rfl

/-- The previous close is NaN (`none`) exactly at the first bar. -/
theorem prevCloseAt_zero (closes : List ℚ) : prevCloseAt closes 0 = none := rfl

/-- On every later bar the previous close is the close of the bar before. -/
theorem prevCloseAt_succ (closes : List ℚ) (v : ℕ) :
    prevCloseAt closes (v + 1) = some (closes.getD v 0) := rfl

/-- The first-bar arm of the loop body. -/
theorem dcaStepCore_none (cfg : DCAConfig) (rh close : ℚ) (book : List (ℚ × ℤ)) :
    dcaStepCore cfg none rh close book =
      if cfg.first_day_buy then
        (book ++ [(close, cfg.base_quantity)], 1, cfg.base_quantity, 0)
      else (book, 0, 0, 0) := rfl

/-- The non-first-bar arm of the loop body, with the three branches
(buy / per-lot profit taking / hold) laid out. -/
theorem dcaStepCore_some (cfg : DCAConfig) (p rh close : ℚ) (book : List (ℚ × ℤ)) :
    dcaStepCore cfg (some p) rh close book =
      if shouldBuyCond cfg p rh close ∧ book.length < cfg.max_positions then
        (book ++ [(close, cfg.calcQuantity (dropFromAvgOf book close))], 1,
          cfg.calcQuantity (dropFromAvgOf book close), 0)
      else if p < close ∧ 0 < book.length then
        if 0 < (book.filter (soldP cfg close)).length then
          (book.filter (keepP cfg close), -1, 0, (book.filter (soldP cfg close)).length)
        else (book, 0, 0, 0)
      else (book, 0, 0, 0) := rfl

/-- Every execution of the loop body takes one of three shapes: it appends
one lot and reports a buy, it leaves the book unchanged and reports a hold,
or it filters out exactly the lots meeting the profit target and reports a
sell of their number. -/
theorem dcaStepCore_shape (cfg : DCAConfig) (prev : Option ℚ) (rh close : ℚ)
    (book : List (ℚ × ℤ)) :
    (∃ q, dcaStepCore cfg prev rh close book = (book ++ [(close, q)], 1, q, 0))
    ∨ dcaStepCore cfg prev rh close book = (book, 0, 0, 0)
    ∨ (0 < (book.filter (soldP cfg close)).length ∧
        dcaStepCore cfg prev rh close book =
          (book.filter (keepP cfg close), -1, 0, (book.filter (soldP cfg close)).length)) := by
  cases prev with
  | none =>
    simp only [dcaStepCore]
    split_ifs with h
    · exact Or.inl ⟨cfg.base_quantity, rfl⟩
    · exact Or.inr (Or.inl rfl)
  | some p =>
    simp only [dcaStepCore]
    split_ifs <;>
      first
        | exact Or.inl ⟨_, rfl⟩
        | exact Or.inr (Or.inl rfl)
        | exact Or.inr (Or.inr ⟨by assumption, rfl⟩)

/-- The sold and the kept lots of the profit-taking pass split the book. -/
theorem length_filter_split (l : List (ℚ × ℤ)) (p : ℚ × ℤ → Bool) :
    (l.filter p).length + (l.filter (fun a => ! p a)).length = l.length := by
  induction l with
  | nil => rfl
  | cons a l ih =>
    by_cases h : p a <;> simp [List.filter, h, ← ih] <;> omega

/-- The rolling high at bar `t` reads only closes at indices `≤ t`. -/
theorem recentHighAt_congr (L : ℕ) (c c' : List ℚ) (t : ℕ)
    (h : ∀ i, i ≤ t → c'.getD i 0 = c.getD i 0) :
    recentHighAt L c' t = recentHighAt L c t := by
  unfold recentHighAt
  congr 1
  refine List.map_congr_left ?_
  intro i hi
  exact h i (Nat.lt_succ_iff.mp (List.mem_range.mp (List.mem_of_mem_drop hi)))

/-- The previous-close column at bar `t` reads only the close at index `t - 1`. -/
theorem prevCloseAt_congr (c c' : List ℚ) (t : ℕ)
    (h : ∀ i, i < t → c'.getD i 0 = c.getD i 0) :
    prevCloseAt c' t = prevCloseAt c t := by
  unfold prevCloseAt
  split_ifs with ht
  · rfl
  · exact congrArg some (h (t - 1) (Nat.sub_lt (Nat.pos_of_ne_zero ht) Nat.one_pos))

/-- The lot book before bar `s` depends only on the closes at indices `< s`:
two series agreeing below `T` produce the same books up to `T`. -/
theorem bookBefore_congr (cfg : DCAConfig) (c c' : List ℚ) (T : ℕ)
    (h : ∀ i, i < T → c'.getD i 0 = c.getD i 0) :
    ∀ s, s ≤ T → bookBefore cfg c' s = bookBefore cfg c s := by
  intro s
  induction s with
  | zero => intro _; rfl
  | succ u ih =>
    intro hs
    have huT : u < T := Nat.lt_of_lt_of_le (Nat.lt_succ_self u) hs
    have h1 : prevCloseAt c' u = prevCloseAt c u :=
      prevCloseAt_congr c c' u (fun i hi => h i (Nat.lt_trans hi huT))
    have h2 : recentHighAt cfg.lookback_days c' u = recentHighAt cfg.lookback_days c u :=
      recentHighAt_congr _ c c' u (fun i hi => h i (Nat.lt_of_le_of_lt hi huT))
    rw [bookBefore_succ, bookBefore_succ, h1, h2, h u huT, ih (Nat.le_of_succ_le hs)]

/-- The recorded output of bar `s` depends only on the closes at indices `≤ s`:
two series agreeing below `T` produce the same rows strictly below `T`. -/
theorem dcaBarOut_congr (cfg : DCAConfig) (c c' : List ℚ) (T : ℕ)
    (h : ∀ i, i < T → c'.getD i 0 = c.getD i 0) :
    ∀ s, s < T → dcaBarOut cfg c' s = dcaBarOut cfg c s := by
  intro s hs
  have h1 : prevCloseAt c' s = prevCloseAt c s :=
    prevCloseAt_congr c c' s (fun i hi => h i (Nat.lt_trans hi hs))
  have h2 : recentHighAt cfg.lookback_days c' s = recentHighAt cfg.lookback_days c s :=
    recentHighAt_congr _ c c' s (fun i hi => h i (Nat.lt_of_le_of_lt hi hs))
  unfold dcaBarOut
  rw [h1, h2, h s hs, bookBefore_congr cfg c c' T h s (Nat.le_of_lt hs)]

/-- The lot book never exceeds `max_positions` lots (for a positive cap):
the first-day buy fills at most one lot into an empty book, the buy branch
is guarded by the cap, and the sell branch only removes lots. -/
theorem bookBefore_length_le (cfg : DCAConfig) (closes : List ℚ)
    (hmax : 1 ≤ cfg.max_positions) : ∀ t, (bookBefore cfg closes t).length ≤ cfg.max_positions := by
  intro t
  induction t with
  | zero => exact Nat.zero_le _
  | succ u ih =>
    rw [bookBefore_succ]
    cases u with
    | zero =>
      rw [prevCloseAt_zero, dcaStepCore_none]
      split_ifs
      · simpa [bookBefore] using hmax
      · exact ih
    | succ v =>
      rw [prevCloseAt_succ, dcaStepCore_some]
      split_ifs with h1 h2 h3
      · simp only [List.length_append, List.length_cons, List.length_nil]
        omega
      · exact Nat.le_trans (List.length_filter_le _ _) ih
      · exact ih
      · exact ih

/-- The sold lots and the kept lots of the profit-taking pass split the book. -/
theorem length_filter_sold_keep (cfg : DCAConfig) (close : ℚ) (l : List (ℚ × ℤ)) :
    (l.filter (soldP cfg close)).length + (l.filter (keepP cfg close)).length = l.length :=
  length_filter_split l (soldP cfg close)

/-! ## Claim theorems -/

/-- C4: for every input series and every bar of a DailyDCA run with a positive
`max_positions` cap, `Position_Count` never exceeds `max_positions`, including
on the first bar when `first_day_buy` is enabled. -/
theorem position_count_le_max (cfg : DCAConfig) (closes : List ℚ)
    (hmax : 1 ≤ cfg.max_positions) (t : ℕ) :
    (dcaBarOut cfg closes t).posCount ≤ cfg.max_positions := by
  rw [dcaBarOut_posCount]
  exact bookBefore_length_le cfg closes hmax (t + 1)

/-- Witness for C4: the cap holds on a concrete run (first bar bought,
second bar a hold). -/
theorem position_count_le_max_witness :
    1 ≤ cfgFlat.max_positions ∧
      (dcaBarOut cfgFlat [100, 100] 1).posCount ≤ cfgFlat.max_positions :=
  ⟨by decide, position_count_le_max cfgFlat [100, 100] (by decide) 1⟩

/-- C5: lot conservation. At every bar the recorded `Position_Count` equals
the previous bar's count (0 before the first bar), plus one exactly when the
bar's signal is a buy, minus the bar's `Sell_Count`; and `Total_Quantity` is
the sum of the quantities of the lots remaining open after the bar's mutation. -/
theorem lot_conservation (cfg : DCAConfig) (closes : List ℚ) (t : ℕ) :
    (((dcaBarOut cfg closes t).posCount : ℤ) =
      (if t = 0 then 0 else ((dcaBarOut cfg closes (t - 1)).posCount : ℤ)) +
        (if (dcaBarOut cfg closes t).signal = 1 then 1 else 0) -
        ((dcaBarOut cfg closes t).sellCount : ℤ)) ∧
    (dcaBarOut cfg closes t).totalQty =
      ((bookBefore cfg closes (t + 1)).map Prod.snd).sum := by
  refine ⟨?_, rfl⟩
  have hbook : (if t = 0 then 0 else ((dcaBarOut cfg closes (t - 1)).posCount : ℤ)) =
      ((bookBefore cfg closes t).length : ℤ) := by
    cases t with
    | zero => simp [bookBefore]
    | succ u => simp [dcaBarOut_posCount]
  rw [hbook, dcaBarOut_posCount, dcaBarOut_signal, dcaBarOut_sellCount, bookBefore_succ]
  rcases dcaStepCore_shape cfg (prevCloseAt closes t) (recentHighAt cfg.lookback_days closes t)
      (closes.getD t 0) (bookBefore cfg closes t) with ⟨q, hq⟩ | hq | ⟨hpos, hq⟩
  · rw [hq]
    simp
  · rw [hq]
    simp
  · rw [hq]
    have hsplit := length_filter_sold_keep cfg (closes.getD t 0) (bookBefore cfg closes t)
    dsimp only
    rw [if_neg (by decide : ¬ ((-1 : ℤ) = 1))]
    omega

/-- C10: a buy and a sell never occur on the same bar of a DailyDCA run:
a bar with a positive `Sell_Count` records `Buy_Quantity = 0` and
`Signal = -1`, and a bar with a positive `Buy_Quantity` records
`Sell_Count = 0` and `Signal = 1`. -/
theorem no_buy_and_sell_same_bar (cfg : DCAConfig) (closes : List ℚ) (t : ℕ) :
    (0 < (dcaBarOut cfg closes t).sellCount →
      (dcaBarOut cfg closes t).buyQty = 0 ∧ (dcaBarOut cfg closes t).signal = -1) ∧
    (0 < (dcaBarOut cfg closes t).buyQty →
      (dcaBarOut cfg closes t).sellCount = 0 ∧ (dcaBarOut cfg closes t).signal = 1) := by
  have hs := dcaBarOut_signal cfg closes t
  have hb := dcaBarOut_buyQty cfg closes t
  have hc := dcaBarOut_sellCount cfg closes t
  rcases dcaStepCore_shape cfg (prevCloseAt closes t) (recentHighAt cfg.lookback_days closes t)
      (closes.getD t 0) (bookBefore cfg closes t) with ⟨q, hq⟩ | hq | ⟨hpos, hq⟩
  · rw [hq] at hs hb hc
    rw [hs, hb, hc]
    exact ⟨fun h => absurd h (lt_irrefl 0), fun _ => ⟨rfl, rfl⟩⟩
  · rw [hq] at hs hb hc
    rw [hs, hb, hc]
    exact ⟨fun h => absurd h (lt_irrefl 0), fun h => absurd h (lt_irrefl 0)⟩
  · rw [hq] at hs hb hc
    rw [hs, hb, hc]
    exact ⟨fun _ => ⟨rfl, rfl⟩, fun h => absurd h (lt_irrefl 0)⟩

/-- Witness for C10: on `[100, 200]` the strategy buys at bar 0 and sells the
lot at bar 1; both implications fire with their hypotheses discharged. -/
theorem no_buy_and_sell_same_bar_witness :
    ((dcaBarOut cfgFlat [100, 200] 1).buyQty = 0 ∧
      (dcaBarOut cfgFlat [100, 200] 1).signal = -1) ∧
    ((dcaBarOut cfgFlat [100, 200] 0).sellCount = 0 ∧
      (dcaBarOut cfgFlat [100, 200] 0).signal = 1) :=
  ⟨(no_buy_and_sell_same_bar cfgFlat [100, 200] 1).1 (by
      norm_num [dcaBarOut, dcaStep, dcaStepCore, prevCloseAt, recentHighAt, windowMax,
        bookBefore, shouldBuyCond, soldP, keepP, lotProfitPct, bookTotalQty, bookTotalCost,
        DCAConfig.calcQuantity, dropFromAvgOf, pyInt, cfgFlat, List.range_succ]),
   (no_buy_and_sell_same_bar cfgFlat [100, 200] 0).2 (by
      norm_num [dcaBarOut, dcaStep, dcaStepCore, prevCloseAt, recentHighAt, windowMax,
        bookBefore, shouldBuyCond, soldP, keepP, lotProfitPct, bookTotalQty, bookTotalCost,
        DCAConfig.calcQuantity, dropFromAvgOf, pyInt, cfgFlat, List.range_succ])⟩

/-- Counterexample to C1: on `[100, 100]` with a first-day buy, bar 1 holds one
open lot (`Total_Quantity = 1 > 0`) but the `Position` column consumed by the
engine is `0`, not the claimed holding indicator `1`. -/
theorem position_not_holding_indicator :
    positionAt cfgFlat [100, 100] 1 ≠
      (if 0 < (dcaBarOut cfgFlat [100, 100] 1).totalQty then (1 : ℚ) else 0) := by
  norm_num [positionAt, dcaBarOut, dcaStep, dcaStepCore, prevCloseAt, recentHighAt, windowMax,
    bookBefore, shouldBuyCond, soldP, keepP, lotProfitPct, bookTotalQty, bookTotalCost,
    DCAConfig.calcQuantity, dropFromAvgOf, pyInt, cfgFlat, List.range_succ]

/-- C1 (amended): the `Position` value consumed by the engine equals the
strategy's `Signal` at the same bar (values in {-1, 0, 1}), and
`Position_Size` is that `Position` times the `position_size` argument. -/
theorem position_is_signal_times_size (cfg : DCAConfig) (closes : List ℚ) (ps : ℚ) (t : ℕ) :
    positionSizeAt cfg closes ps t = positionAt cfg closes t * ps ∧
    positionAt cfg closes t = ((dcaBarOut cfg closes t).signal : ℚ) ∧
    ((dcaBarOut cfg closes t).signal = -1 ∨ (dcaBarOut cfg closes t).signal = 0 ∨
      (dcaBarOut cfg closes t).signal = 1) := by
  refine ⟨rfl, rfl, ?_⟩
  have hs := dcaBarOut_signal cfg closes t
  rcases dcaStepCore_shape cfg (prevCloseAt closes t) (recentHighAt cfg.lookback_days closes t)
      (closes.getD t 0) (bookBefore cfg closes t) with ⟨q, hq⟩ | hq | ⟨hpos, hq⟩
  · rw [hq] at hs
    exact Or.inr (Or.inr hs)
  · rw [hq] at hs
    exact Or.inr (Or.inl hs)
  · rw [hq] at hs
    exact Or.inl hs

/-- Counterexample to C3: on `[100, 90, 95]` with pullback trigger at 1%,
bar 2 is an up day on which the pullback buy executes; the lot bought at 90
meets the 3% profit target at close 95 yet is not sold (`Sell_Count = 0`),
refuting the claimed "sold iff profit ≥ target". -/
theorem lot_sale_iff_refuted :
    ((90 : ℚ), (1 : ℤ)) ∈ bookBefore cfgPull [100, 90, 95] 3 ∧
    cfgPull.profit_target_percent ≤ lotProfitPct (([100, 90, 95] : List ℚ).getD 2 0) 90 ∧
    (dcaBarOut cfgPull [100, 90, 95] 2).sellCount = 0 := by
  norm_num [dcaBarOut, dcaStep, dcaStepCore, prevCloseAt, recentHighAt, windowMax,
    bookBefore, shouldBuyCond, soldP, keepP, lotProfitPct, bookTotalQty, bookTotalCost,
    DCAConfig.calcQuantity, dropFromAvgOf, pyInt, cfgPull, List.range_succ]

/-- A lot passes the keep-filter exactly when it misses the profit target. -/
theorem keepP_eq_true (cfg : DCAConfig) (close : ℚ) (pq : ℚ × ℤ) :
    keepP cfg close pq = true ↔
      ¬ (cfg.profit_target_percent ≤ lotProfitPct close pq.1) := by
  simp [keepP, soldP]

/-- A lot passes the sold-filter exactly when it meets the profit target. -/
theorem soldP_eq_true (cfg : DCAConfig) (close : ℚ) (pq : ℚ × ℤ) :
    soldP cfg close pq = true ↔
      cfg.profit_target_percent ≤ lotProfitPct close pq.1 := by
  simp [soldP]

/-- C3 (amended): a lot in the book at bar `t` is removed at bar `t` if and
only if the profit-taking branch runs at `t` (not the first bar, no buy
executed, close rose versus the previous bar) and that lot's own profit
`(Close[t] - entry)/entry × 100` meets `profit_target_percent`; the decision
reads only the lot itself, never the other lots. -/
theorem lot_sale_iff_in_sell_branch (cfg : DCAConfig) (closes : List ℚ) (t : ℕ)
    (pq : ℚ × ℤ) (hmem : pq ∈ bookBefore cfg closes t) :
    (pq ∉ bookBefore cfg closes (t + 1)) ↔
      (sellBranchAt cfg closes t ∧
        cfg.profit_target_percent ≤ lotProfitPct (closes.getD t 0) pq.1) := by
  cases t with
  | zero => exact absurd hmem (List.not_mem_nil pq)
  | succ u =>
    rw [bookBefore_succ, prevCloseAt_succ, dcaStepCore_some]
    by_cases h1 : shouldBuyCond cfg (closes.getD u 0)
        (recentHighAt cfg.lookback_days closes (u + 1)) (closes.getD (u + 1) 0) ∧
        (bookBefore cfg closes (u + 1)).length < cfg.max_positions
    · rw [if_pos h1]
      dsimp only
      constructor
      · intro hnot
        exact absurd (List.mem_append_left _ hmem) hnot
      · rintro ⟨hsell, _⟩
        exact absurd h1 hsell.2.1
    · rw [if_neg h1]
      by_cases h2 : closes.getD u 0 < closes.getD (u + 1) 0 ∧
          0 < (bookBefore cfg closes (u + 1)).length
      · rw [if_pos h2]
        by_cases h3 : 0 < ((bookBefore cfg closes (u + 1)).filter
            (soldP cfg (closes.getD (u + 1) 0))).length
        · rw [if_pos h3]
          dsimp only
          have hsell : sellBranchAt cfg closes (u + 1) := ⟨Nat.succ_ne_zero u, h1, h2.1⟩
          constructor
          · intro hnot
            refine ⟨hsell, ?_⟩
            by_contra hlt
            exact hnot (List.mem_filter.mpr ⟨hmem, (keepP_eq_true _ _ _).mpr hlt⟩)
          · rintro ⟨_, hprof⟩
            intro hin
            exact ((keepP_eq_true _ _ _).mp (List.mem_filter.mp hin).2) hprof
        · rw [if_neg h3]
          dsimp only
          constructor
          · intro hnot
            exact absurd hmem hnot
          · rintro ⟨_, hprof⟩
            exact absurd (List.length_pos.mpr (List.ne_nil_of_mem
              (List.mem_filter.mpr ⟨hmem, (soldP_eq_true _ _ _).mpr hprof⟩))) h3
      · rw [if_neg h2]
        dsimp only
        constructor
        · intro hnot
          exact absurd hmem hnot
        · rintro ⟨hsell, _⟩
          exact absurd ⟨hsell.2.2, List.length_pos.mpr (List.ne_nil_of_mem hmem)⟩ h2

/-- Witness for C3 (amended): on `[100, 95, 104]` the lot bought at 100 sits
in the book before bar 2 and is sold there by the profit-taking branch. -/
theorem lot_sale_iff_in_sell_branch_witness :
    (((100 : ℚ), (1 : ℤ)) ∉ bookBefore cfgFlat [100, 95, 104] 3) ↔
      (sellBranchAt cfgFlat [100, 95, 104] 2 ∧
        cfgFlat.profit_target_percent ≤
          lotProfitPct (([100, 95, 104] : List ℚ).getD 2 0) (100, (1 : ℤ)).1) :=
  lot_sale_iff_in_sell_branch cfgFlat [100, 95, 104] 2 (100, 1) (by
    norm_num [dcaBarOut, dcaStep, dcaStepCore, prevCloseAt, recentHighAt, windowMax,
      bookBefore, shouldBuyCond, soldP, keepP, lotProfitPct, bookTotalQty, bookTotalCost,
      DCAConfig.calcQuantity, dropFromAvgOf, pyInt, cfgFlat, List.range_succ])

/-- Counterexample to C6: on `[100, 90, 90]` with a 3% pullback trigger,
bar 2 has `Close[2] = Close[1]` yet the pullback from the rolling high (10%)
fires the buy branch: the bar records `Signal = 1` with a positive
`Buy_Quantity`, not the claimed no-op. -/
theorem equal_close_pullback_buy_cx :
    (([100, 90, 90] : List ℚ).getD 2 0 = ([100, 90, 90] : List ℚ).getD 1 0) ∧
    ¬ ((dcaBarOut cfgPullNoFirst [100, 90, 90] 2).signal = 0 ∧
        (dcaBarOut cfgPullNoFirst [100, 90, 90] 2).buyQty = 0 ∧
        (dcaBarOut cfgPullNoFirst [100, 90, 90] 2).sellCount = 0) := by
  norm_num [dcaBarOut, dcaStep, dcaStepCore, prevCloseAt, recentHighAt, windowMax,
    bookBefore, shouldBuyCond, soldP, keepP, lotProfitPct, bookTotalQty, bookTotalCost,
    DCAConfig.calcQuantity, dropFromAvgOf, pyInt, cfgPullNoFirst, List.range_succ]

/-- C6 (amended): on a bar with `Close[t] = Close[t-1]` neither the
`Daily_Drop` buy trigger nor the sell branch can fire: `Sell_Count = 0`
always, and unless the pullback trigger fires with a free slot the bar is a
complete no-op (`Signal = 0`, `Buy_Quantity = 0`, lot book unchanged). -/
theorem equal_close_no_sell_amended (cfg : DCAConfig) (closes : List ℚ) (t : ℕ)
    (heq : closes.getD (t + 1) 0 = closes.getD t 0) :
    (dcaBarOut cfg closes (t + 1)).sellCount = 0 ∧
    (¬ (pullbackCondAt cfg closes (t + 1) ∧
        (bookBefore cfg closes (t + 1)).length < cfg.max_positions) →
      (dcaBarOut cfg closes (t + 1)).signal = 0 ∧
      (dcaBarOut cfg closes (t + 1)).buyQty = 0 ∧
      bookBefore cfg closes (t + 2) = bookBefore cfg closes (t + 1)) := by
  have hc : (dcaBarOut cfg closes (t + 1)).sellCount =
      (dcaStepCore cfg (some (closes.getD t 0))
        (recentHighAt cfg.lookback_days closes (t + 1)) (closes.getD (t + 1) 0)
        (bookBefore cfg closes (t + 1))).2.2.2 := by
    rw [dcaBarOut_sellCount, prevCloseAt_succ]
  have hs : (dcaBarOut cfg closes (t + 1)).signal =
      (dcaStepCore cfg (some (closes.getD t 0))
        (recentHighAt cfg.lookback_days closes (t + 1)) (closes.getD (t + 1) 0)
        (bookBefore cfg closes (t + 1))).2.1 := by
    rw [dcaBarOut_signal, prevCloseAt_succ]
  have hb : (dcaBarOut cfg closes (t + 1)).buyQty =
      (dcaStepCore cfg (some (closes.getD t 0))
        (recentHighAt cfg.lookback_days closes (t + 1)) (closes.getD (t + 1) 0)
        (bookBefore cfg closes (t + 1))).2.2.1 := by
    rw [dcaBarOut_buyQty, prevCloseAt_succ]
  have hbook : bookBefore cfg closes (t + 2) =
      (dcaStepCore cfg (some (closes.getD t 0))
        (recentHighAt cfg.lookback_days closes (t + 1)) (closes.getD (t + 1) 0)
        (bookBefore cfg closes (t + 1))).1 := by
    rw [bookBefore_succ, prevCloseAt_succ]
  have hnotlt : ¬ (closes.getD t 0 < closes.getD (t + 1) 0) := by
    rw [heq]
    exact lt_irrefl _
  have hsb : shouldBuyCond cfg (closes.getD t 0)
      (recentHighAt cfg.lookback_days closes (t + 1)) (closes.getD (t + 1) 0) ↔
      pullbackCondAt cfg closes (t + 1) := by
    unfold shouldBuyCond pullbackCondAt
    constructor
    · rintro (hlt | hp)
      · rw [heq] at hlt
        exact absurd hlt (lt_irrefl _)
      · exact hp
    · exact Or.inr
  by_cases hbuy : pullbackCondAt cfg closes (t + 1) ∧
      (bookBefore cfg closes (t + 1)).length < cfg.max_positions
  · have h1 : shouldBuyCond cfg (closes.getD t 0)
        (recentHighAt cfg.lookback_days closes (t + 1)) (closes.getD (t + 1) 0) ∧
        (bookBefore cfg closes (t + 1)).length < cfg.max_positions :=
      ⟨hsb.mpr hbuy.1, hbuy.2⟩
    refine ⟨?_, fun hn => absurd hbuy hn⟩
    rw [hc, dcaStepCore_some, if_pos h1]
  · have h1 : ¬ (shouldBuyCond cfg (closes.getD t 0)
        (recentHighAt cfg.lookback_days closes (t + 1)) (closes.getD (t + 1) 0) ∧
        (bookBefore cfg closes (t + 1)).length < cfg.max_positions) :=
      fun h => hbuy ⟨hsb.mp h.1, h.2⟩
    have h2 : ¬ (closes.getD t 0 < closes.getD (t + 1) 0 ∧
        0 < (bookBefore cfg closes (t + 1)).length) :=
      fun h => hnotlt h.1
    refine ⟨?_, fun _ => ⟨?_, ?_, ?_⟩⟩
    · rw [hc, dcaStepCore_some, if_neg h1, if_neg h2]
    · rw [hs, dcaStepCore_some, if_neg h1, if_neg h2]
    · rw [hb, dcaStepCore_some, if_neg h1, if_neg h2]
    · rw [hbook, dcaStepCore_some, if_neg h1, if_neg h2]

/-- Witness for C6 (amended): on `[100, 100]` bar 1 repeats the close; the
pullback does not fire (drop 0% < 9999%), so the bar is a no-op. -/
theorem equal_close_no_sell_amended_witness :
    (dcaBarOut cfgFlat [100, 100] 1).sellCount = 0 ∧
    (dcaBarOut cfgFlat [100, 100] 1).signal = 0 ∧
    (dcaBarOut cfgFlat [100, 100] 1).buyQty = 0 ∧
    bookBefore cfgFlat [100, 100] 2 = bookBefore cfgFlat [100, 100] 1 := by
  have h := equal_close_no_sell_amended cfgFlat [100, 100] 0 (by norm_num)
  refine ⟨h.1, ?_⟩
  have h2 := h.2 (by
    norm_num [pullbackCondAt, recentHighAt, windowMax, cfgFlat, List.range_succ])
  exact ⟨h2.1, h2.2.1, h2.2.2⟩

/-- C2: at every bar `t ≥ 1`,
`Strategy_Returns[t] = Position_Size[t-1] × (Close[t]/Close[t-1] − 1) −
(Commission_Cost[t] + Slippage_Cost[t])`; and `Strategy_Returns` at the bars
before `t` reads only closes at indices other than `t`, so changing bar `t`'s
close never changes any earlier bar's strategy return. -/
theorem strategy_returns_formula_no_lookahead (cfg : DCAConfig) (com slip ps : ℚ)
    (closes : List ℚ) (t : ℕ) (_ht : 1 ≤ t) :
    (strategyReturnsAt cfg com slip ps closes t =
      positionSizeAt cfg closes ps (t - 1) *
        (closes.getD t 0 / closes.getD (t - 1) 0 - 1) -
        (commissionCostAt cfg com closes t + slippageCostAt cfg slip closes t)) ∧
    (∀ closes' s, (∀ i, i ≠ t → closes'.getD i 0 = closes.getD i 0) → 1 ≤ s → s < t →
      strategyReturnsAt cfg com slip ps closes' s =
        strategyReturnsAt cfg com slip ps closes s) := by
  constructor
  · rfl
  · intro c' s hag hs1 hst
    have hlt : ∀ i, i < t → c'.getD i 0 = closes.getD i 0 :=
      fun i hi => hag i (Nat.ne_of_lt hi)
    have hout : ∀ u, u < t → dcaBarOut cfg c' u = dcaBarOut cfg closes u :=
      dcaBarOut_congr cfg closes c' t hlt
    have hprev : s - 1 < t := Nat.lt_of_le_of_lt (Nat.sub_le s 1) hst
    unfold strategyReturnsAt positionSizeAt positionAt returnsAt totalCostAt
      commissionCostAt slippageCostAt tradeAt positionAt
    rw [hout s hst, hout (s - 1) hprev, hlt s hst, hlt (s - 1) hprev]

/-- Witness for C2: the per-bar formula at bar 2 of `[100, 90, 80]`, and
changing bar 2's close to 999 leaves bar 1's strategy return unchanged. -/
theorem strategy_returns_formula_no_lookahead_witness :
    (strategyReturnsAt cfgFlat (1/1000) (1/1000) 1 [100, 90, 80] 2 =
      positionSizeAt cfgFlat [100, 90, 80] 1 (2 - 1) *
        (([100, 90, 80] : List ℚ).getD 2 0 / ([100, 90, 80] : List ℚ).getD (2 - 1) 0 - 1) -
        (commissionCostAt cfgFlat (1/1000) [100, 90, 80] 2 +
          slippageCostAt cfgFlat (1/1000) [100, 90, 80] 2)) ∧
    strategyReturnsAt cfgFlat (1/1000) (1/1000) 1 [100, 90, 999] 1 =
      strategyReturnsAt cfgFlat (1/1000) (1/1000) 1 [100, 90, 80] 1 := by
  have h := strategy_returns_formula_no_lookahead cfgFlat (1/1000) (1/1000) 1
    [100, 90, 80] 2 (by norm_num)
  refine ⟨h.1, h.2 [100, 90, 999] 1 ?_ (by norm_num) (by norm_num)⟩
  intro i hi
  match i with
  | 0 => rfl
  | 1 => rfl
  | 2 => exact absurd rfl hi
  | (n + 3) => rfl

/-- C7 (code bug): with position scaling on and the default configuration, a
pullback buy above the book's average price makes `drop_from_avg` negative
enough that the unclamped multiplier goes below 1: on `[100, 150, 90, 120]`
bar 3 buys quantity `-5` (below `base_quantity = 1`), leaving a negative
total holding; `_calculate_quantity` itself maps `drop_from_avg = -10` to `-1`. -/
theorem scaling_quantity_below_base :
    (dcaBarOut cfgScale [100, 150, 90, 120] 3).buyQty = -5 ∧
    (dcaBarOut cfgScale [100, 150, 90, 120] 3).signal = 1 ∧
    (dcaBarOut cfgScale [100, 150, 90, 120] 3).totalQty = -4 ∧
    cfgScale.calcQuantity (-10) = -1 := by
  norm_num [dcaBarOut, dcaStep, dcaStepCore, prevCloseAt, recentHighAt, windowMax,
    bookBefore, shouldBuyCond, soldP, keepP, lotProfitPct, bookTotalQty, bookTotalCost,
    DCAConfig.calcQuantity, dropFromAvgOf, pyInt, cfgScale, List.range_succ]

/-- C8 (code bug): when no bar has a negative strategy return, the downside
standard deviation is NaN, Python's `NaN != 0` comparison is `True`, and the
Sortino ratio comes out NaN (`none`) instead of the documented sentinel 0 —
for every value of the (abstracted) square root function. -/
theorem sortino_nan_on_no_losses (f : ℚ → ℚ) :
    sortinoRatio f [none, some 1, some 2] = none := rfl

/-- C9: applying a strategy errors exactly on an input table that is empty or
misses one of the five required columns; on every other table validation
passes and the signals are produced. -/
theorem validation_rejects_iff (sig : Table → List ℤ) (tb : Table) :
    (∃ e, apply_strategy sig tb = Except.error e) ↔
      (tb.nrows = 0 ∨ ∃ c ∈ requiredColumns, tb.columns.contains c = false) := by
  unfold apply_strategy validate_data
  cases hf : requiredColumns.find? (fun c => ! tb.columns.contains c) with
  | some c =>
    constructor
    · intro _
      refine Or.inr ⟨c, List.mem_of_find?_eq_some hf, ?_⟩
      have hp := List.find?_some hf
      simpa using hp
    · intro _
      exact ⟨_, rfl⟩
  | none =>
    have hall : ∀ c ∈ requiredColumns, tb.columns.contains c = true := by
      intro c hc
      have hp := List.find?_eq_none.mp hf c hc
      simpa using hp
    by_cases hn : tb.nrows = 0
    · rw [if_pos hn]
      exact ⟨fun _ => Or.inl hn, fun _ => ⟨_, rfl⟩⟩
    · rw [if_neg hn]
      constructor
      · rintro ⟨e, he⟩
        cases he
      · rintro (h | ⟨c, hc, hcc⟩)
        · exact absurd h hn
        · rw [hall c hc] at hcc
          cases hcc
